import Mathlib

/-!
Verification of the astrosky report-aggregation and visibility-computation
pipeline against its specification.

The Python sources under `src/skycli/` are shallowly embedded below.
Machine floats are modelled by exact rationals; Python `round` (half-to-even
rounding) and `int()` (truncation toward zero) are modelled explicitly.
External collaborators (the skyfield/astronomy ephemeris provider, the
N2YO network feed, the JSON catalogs) are modelled as explicit inputs:
records of oracle functions keyed by exactly the arguments the code
passes to them, so that each embedded function consumes its
collaborators precisely where the Python code does.
-/

namespace AstroSky

/-- Python `round(x)` on a real value: round half to even, returning an
integer.  Ties (fractional part exactly 1/2) go to the even neighbour. -/
def pyRound (x : ℚ) : ℤ :=
  if x - ⌊x⌋ < 1/2 then ⌊x⌋
  else if 1/2 < x - ⌊x⌋ then ⌊x⌋ + 1
  else if ⌊x⌋ % 2 = 0 then ⌊x⌋ else ⌊x⌋ + 1

/-- Python `round(x, d)` with `d` decimal digits: scale, banker-round,
unscale. -/
def pyRoundTo (d : ℕ) (x : ℚ) : ℚ :=
  (pyRound (x * 10 ^ d) : ℚ) / 10 ^ d

/-- Python `int(x)` on a real value: truncation toward zero. -/
def pyInt (x : ℚ) : ℤ :=
  if 0 ≤ x then ⌊x⌋ else ⌈x⌉

/-- A Python `datetime`: the fields the embedded code reads.  All
computation in the source is over UTC datetimes. -/
structure DateTime where
  year : ℕ
  month : ℕ
  day : ℕ
  hour : ℕ
  minute : ℕ
  second : ℕ
  microsecond : ℕ
deriving DecidableEq

/-- `date.replace(hour=h, minute=m)`: all other fields kept. -/
def dtReplace (d : DateTime) (h m : ℕ) : DateTime :=
  { d with hour := h, minute := m }

/-- The key of a skyfield `ts.utc(year, month, day, hour, minute)` call:
the instant is determined by exactly these five fields. -/
def tsKey5 (d : DateTime) : ℕ × ℕ × ℕ × ℕ × ℕ :=
  (d.year, d.month, d.day, d.hour, d.minute)

/-- The key of the `ts.utc(year, month, day)` / `ts.utc(year, month,
day + 1)` day-window pair used for discrete rise/set searches:
determined by the date fields alone. -/
def tsKey3 (d : DateTime) : ℕ × ℕ × ℕ :=
  (d.year, d.month, d.day)

/-! ### 8-way compass bucketing (`planets.py` and `iss.py`) -/

/-- The compass table shared by both `_azimuth_to_direction` copies. -/
def directions : List String := ["N", "NE", "E", "SE", "S", "SW", "W", "NW"]

/-- `skycli.sources.planets._azimuth_to_direction`:
`directions[round(azimuth / 45) % 8]`. -/
def azimuthToDirectionPlanets (azimuth : ℚ) : String :=
  directions.getD (pyRound (azimuth / 45) % 8).toNat "N"

/-- `skycli.sources.iss._azimuth_to_direction`: the identical copy of
the conversion kept in `iss.py`. -/
def azimuthToDirectionIss (azimuth : ℚ) : String :=
  directions.getD (pyRound (azimuth / 45) % 8).toNat "N"

/-! ### Sun and moon (`sun_moon.py`) -/

/-- The `SunTimes` TypedDict.  In the source each field is a datetime:
a found discrete event, or the fixed fallback substituted by
`get_sun_times` when no event was found. -/
structure SunTimes where
  sunrise : DateTime
  sunset : DateTime
  astronomical_twilight_start : DateTime
  astronomical_twilight_end : DateTime
deriving DecidableEq

/-- The `MoonInfo` TypedDict. -/
structure MoonInfo where
  phase_name : String
  illumination : ℚ
  darkness_quality : String
  moonrise : Option DateTime
  moonset : Option DateTime
deriving DecidableEq

/-- The ephemeris-provider capability consumed by `sun_moon.py`,
abstracted over its skyfield implementation.  Each field is one query
the code makes, keyed by the observer coordinates and exactly the
datetime fields the code passes to `ts.utc`.  Discrete-event searches
return the ordered `(instant, event_code)` pairs skyfield yields over
the midnight-to-midnight window. -/
structure SunMoonEphemeris where
  sunEvents : ℚ → ℚ → ℕ × ℕ × ℕ → List (DateTime × ℕ)
  twilightEvents : ℚ → ℚ → ℕ × ℕ × ℕ → List (DateTime × ℕ)
  moonPhaseAngle : ℕ × ℕ × ℕ × ℕ × ℕ → ℚ
  moonEvents : ℚ → ℚ → ℕ × ℕ × ℕ → List (DateTime × ℕ)

/-- The rise/set loops of `get_sun_times` and `get_moon_info`: each
event overwrites the slot for its kind (`event == 1` is a rise,
anything else a set), so the last event of each kind wins. -/
def riseSetFold (events : List (DateTime × ℕ)) : Option DateTime × Option DateTime :=
  events.foldl
    (fun p te => if te.2 = 1 then (some te.1, p.2) else (p.1, some te.1))
    (none, none)

/-- One step of the twilight loop of `get_sun_times`: event code 0 is a
transition to night level, code 1 to astronomical level; each slot is
only written while still `None`, and the code compares the UTC hour
field of the event datetime with 12. -/
def twilightStep (p : Option DateTime × Option DateTime) (te : DateTime × ℕ) :
    Option DateTime × Option DateTime :=
  if te.2 = 0 ∧ p.1 = none ∧ 12 < te.1.hour then (some te.1, p.2)
  else if te.2 = 1 ∧ p.2 = none ∧ te.1.hour < 12 then (p.1, some te.1)
  else p

/-- The twilight loop of `get_sun_times` over the found transitions. -/
def twilightFold (events : List (DateTime × ℕ)) : Option DateTime × Option DateTime :=
  events.foldl twilightStep (none, none)

/-- `skycli.sources.sun_moon.get_sun_times`. -/
def getSunTimes (eph : SunMoonEphemeris) (lat lon : ℚ) (date : DateTime) : SunTimes :=
  let sunPair := riseSetFold (eph.sunEvents lat lon (tsKey3 date))
  let twPair := twilightFold (eph.twilightEvents lat lon (tsKey3 date))
  { sunrise := sunPair.1.getD (dtReplace date 6 0)
    sunset := sunPair.2.getD (dtReplace date 18 0)
    astronomical_twilight_start := twPair.1.getD (dtReplace date 21 0)
    astronomical_twilight_end := twPair.2.getD (dtReplace date 5 0) }

/-- The phase-name bucket chain of `get_moon_info` (thresholds
`PHASE_*_MAX`; wraparound at the New Moon bucket). -/
def phaseNameOf (phaseAngle : ℚ) : String :=
  if phaseAngle < 45/2 ∨ phaseAngle ≥ 675/2 then "New Moon"
  else if phaseAngle < 135/2 then "Waxing Crescent"
  else if phaseAngle < 225/2 then "First Quarter"
  else if phaseAngle < 315/2 then "Waxing Gibbous"
  else if phaseAngle < 405/2 then "Full Moon"
  else if phaseAngle < 495/2 then "Waning Gibbous"
  else if phaseAngle < 585/2 then "Last Quarter"
  else "Waning Crescent"

/-- The darkness-quality chain of `get_moon_info` (thresholds
`DARKNESS_*_MAX`), applied by the code to the illumination value. -/
def darknessQualityOf (illumination : ℚ) : String :=
  if illumination < 25 then "Excellent"
  else if illumination < 50 then "Good"
  else if illumination < 75 then "Fair"
  else "Poor"

/-- The illumination formula of `get_moon_info`:
`(1 - abs(180 - phase_angle) / 180) * 100`. -/
def illuminationOf (phaseAngle : ℚ) : ℚ :=
  (1 - |180 - phaseAngle| / 180) * 100

/-- `skycli.sources.sun_moon.get_moon_info`.  The phase angle is
sampled at `ts.utc(year, month, day, hour, minute)`; the darkness
quality is computed from the raw illumination, while the returned
illumination is `round(illumination, 1)`. -/
def getMoonInfo (eph : SunMoonEphemeris) (lat lon : ℚ) (date : DateTime) : MoonInfo :=
  { phase_name := phaseNameOf (eph.moonPhaseAngle (tsKey5 date))
    illumination := pyRoundTo 1 (illuminationOf (eph.moonPhaseAngle (tsKey5 date)))
    darkness_quality := darknessQualityOf (illuminationOf (eph.moonPhaseAngle (tsKey5 date)))
    moonrise := (riseSetFold (eph.moonEvents lat lon (tsKey3 date))).1
    moonset := (riseSetFold (eph.moonEvents lat lon (tsKey3 date))).2 }

/-! ### Planets (`planets.py`) -/

/-- The `PlanetInfo` TypedDict. -/
structure PlanetInfo where
  name : String
  direction : String
  azimuth : ℚ
  altitude : ℚ
  rise_time : Option DateTime
  set_time : Option DateTime
  description : String
deriving DecidableEq

/-- The `PLANETS` table. -/
def PLANETS : List String :=
  ["Mercury", "Venus", "Mars", "Jupiter", "Saturn", "Uranus", "Neptune"]

/-- The `PLANET_DESCRIPTIONS` table. -/
def planetDescription (name : String) : String :=
  if name = "Mercury" then "Elusive, close to Sun"
  else if name = "Venus" then "Brilliant, unmistakable"
  else if name = "Mars" then "Reddish hue"
  else if name = "Jupiter" then "Bright, steady light"
  else if name = "Saturn" then "Golden, rings in telescope"
  else if name = "Uranus" then "Faint, blue-green"
  else if name = "Neptune" then "Very faint, needs telescope"
  else ""

/-- The barycenter-vs-planet key distinction of `get_visible_planets`. -/
def planetKey (name : String) : String :=
  if name = "Jupiter" ∨ name = "Saturn" ∨ name = "Uranus" ∨ name = "Neptune" then
    name ++ " barycenter"
  else name

/-- The ephemeris-provider capability consumed by `planets.py`:
apparent altitude/azimuth of a body at the minute-truncated instant,
and discrete rise/set events over the day window. -/
structure PlanetEphemeris where
  altaz : ℚ → ℚ → String → ℕ × ℕ × ℕ × ℕ × ℕ → ℚ × ℚ
  riseSetEvents : ℚ → ℚ → String → ℕ × ℕ × ℕ → List (DateTime × ℕ)

/-- The per-planet body of the `get_visible_planets` loop: `None` when
the planet is skipped (`altitude <= 0`), otherwise the built entry.
The stored altitude is `round(altitude, 0)` and the stored azimuth is
`round(azimuth, 1)`; direction uses the unrounded azimuth. -/
def planetEntry (eph : PlanetEphemeris) (lat lon : ℚ) (date : DateTime)
    (name : String) : Option PlanetInfo :=
  if (eph.altaz lat lon (planetKey name) (tsKey5 date)).1 ≤ 0 then none
  else
    some
      { name := name
        direction :=
          azimuthToDirectionPlanets (eph.altaz lat lon (planetKey name) (tsKey5 date)).2
        azimuth := pyRoundTo 1 (eph.altaz lat lon (planetKey name) (tsKey5 date)).2
        altitude := pyRoundTo 0 (eph.altaz lat lon (planetKey name) (tsKey5 date)).1
        rise_time := (riseSetFold (eph.riseSetEvents lat lon (planetKey name) (tsKey3 date))).1
        set_time := (riseSetFold (eph.riseSetEvents lat lon (planetKey name) (tsKey3 date))).2
        description := planetDescription name }

/-- `skycli.sources.planets.get_visible_planets`: build entries for the
planets above the horizon, then `visible.sort(key=altitude,
reverse=True)` — a stable descending sort on the stored altitude. -/
def getVisiblePlanets (eph : PlanetEphemeris) (lat lon : ℚ) (date : DateTime) :
    List PlanetInfo :=
  let visible := PLANETS.filterMap (planetEntry eph lat lon date)
  visible.insertionSort (fun a b => b.altitude ≤ a.altitude)

/-! ### ISS passes (`iss.py`)

The network feed is modelled by the outcome of the `httpx.get` /
`raise_for_status` / `response.json()` block: either one of the error
kinds the `except` clauses catch, or a parsed JSON-like value.  Python
values reached by the parsing loop are modelled by `PyVal`, and Python
exceptions raised by that loop (which sits outside the `try` block in
the source) surface in the `Except` result of the embedded function. -/

/-- A parsed JSON-ish Python value, as the parsing loop can see it. -/
inductive PyVal where
  | num (q : ℚ)
  | str (s : String)
  | list (xs : List PyVal)
  | dict (kvs : List (String × PyVal))
  | none

/-- A Python exception escaping the parsing loop. -/
inductive PyErr where
  | keyError (k : String)
  | attributeError
  | typeError
deriving DecidableEq

/-- `d.get(key, default)`: `AttributeError` when the receiver is not a
dict. -/
def PyVal.getDefault (v : PyVal) (k : String) (dflt : PyVal) : Except PyErr PyVal :=
  match v with
  | .dict kvs => .ok ((kvs.lookup k).getD dflt)
  | _ => .error .attributeError

/-- `d[key]` subscript: `KeyError` on a missing key, `TypeError` when
the receiver is not a dict. -/
def PyVal.item (v : PyVal) (k : String) : Except PyErr PyVal :=
  match v with
  | .dict kvs =>
    match kvs.lookup k with
    | some x => .ok x
    | Option.none => .error (.keyError k)
  | _ => .error .typeError

/-- Use of a value as a number (arithmetic, `fromtimestamp`, `round`):
`TypeError` when it is not numeric. -/
def PyVal.asNum (v : PyVal) : Except PyErr ℚ :=
  match v with
  | .num q => .ok q
  | _ => .error .typeError

/-- `for p in xs`: lists iterate elements, dicts iterate keys, strings
iterate characters; other values raise `TypeError`. -/
def PyVal.iterate (v : PyVal) : Except PyErr (List PyVal) :=
  match v with
  | .list xs => .ok xs
  | .dict kvs => .ok (kvs.map fun kv => .str kv.1)
  | .str s => .ok (s.toList.map fun c => .str (String.singleton c))
  | _ => .error .typeError

/-- The `ISSPass` TypedDict.  `start_time` keeps the epoch-seconds
value handed to `datetime.fromtimestamp`. -/
structure ISSPass where
  start_time : ℚ
  duration_minutes : ℤ
  max_altitude : ℚ
  start_direction : String
  end_direction : String
  brightness : String
  magnitude : ℚ
deriving DecidableEq

/-- `skycli.sources.iss._magnitude_to_brightness` (thresholds
`BRIGHTNESS_THRESHOLD_BRIGHT = -3.0`, `_MODERATE = -1.5`). -/
def magnitudeToBrightness (mag : ℚ) : String :=
  if mag ≤ -3 then "Bright!"
  else if mag ≤ -3/2 then "Moderate"
  else "Faint"

/-- The per-entry body of the parsing loop of `get_iss_passes`, in the
evaluation order of the source: `mag` via `.get` with default `0.0`,
then each subscript in the order the `ISSPass` constructor arguments
are written.  `duration // 60` is integer floor division. -/
def parseIssPass (p : PyVal) : Except PyErr ISSPass := do
  let mag ← (← p.getDefault "mag" (.num 0)).asNum
  let startUTC ← (← p.item "startUTC").asNum
  let duration ← (← p.item "duration").asNum
  let maxEl ← (← p.item "maxEl").asNum
  let startAz ← (← p.item "startAz").asNum
  let endAz ← (← p.item "endAz").asNum
  pure
    { start_time := startUTC
      duration_minutes := ⌊duration / 60⌋
      max_altitude := maxEl
      start_direction := azimuthToDirectionIss startAz
      end_direction := azimuthToDirectionIss endAz
      brightness := magnitudeToBrightness mag
      magnitude := pyRoundTo 1 mag }

/-- Outcome of the guarded fetch block of `get_iss_passes`: the four
`except` arms, or the decoded JSON body. -/
inductive FetchOutcome where
  | timeout
  | httpStatusError
  | requestError
  | otherError
  | body (data : PyVal)

/-- `skycli.sources.iss.get_iss_passes`.  The missing-credential check
and every fetch-level failure return `[]`; the parsing loop runs
outside the `try` block, so any exception it raises propagates as
`.error`. -/
def getIssPasses (apiKey : String) (fetch : FetchOutcome) : Except PyErr (List ISSPass) :=
  if apiKey = "" then .ok []
  else
    match fetch with
    | .timeout => .ok []
    | .httpStatusError => .ok []
    | .requestError => .ok []
    | .otherError => .ok []
    | .body data => do
      let passesVal ← data.getDefault "passes" (.list [])
      let entries ← passesVal.iterate
      let passes ← entries.mapM parseIssPass
      pure passes

/-! ### Aurora visibility probability (`aurora.py`) -/

/-- `skycli.sources.aurora._calculate_visibility_probability`.  Python
`int()` appears both on the capped base probability and on the `kp`
products. -/
def calculateVisibilityProbability (userLat visibleLat kp : ℚ) : ℤ :=
  if visibleLat ≤ |userLat| then
    min 100 (pyInt (80 + min 20 ((|userLat| - visibleLat) * 2)))
  else
    if 20 < visibleLat - |userLat| then 0
    else if 15 < visibleLat - |userLat| then 5
    else if 10 < visibleLat - |userLat| then 10 + pyInt (kp * 2)
    else if 5 < visibleLat - |userLat| then 25 + pyInt (kp * 5)
    else 50 + pyInt (kp * 5)

/-- The visibility-probability formula exactly as the specification
words it, with no integer truncation: `min(100, 80 + 2*excess)` above
the visible latitude, and the stepwise `0 / 5 / 10+2*Kp / 25+5*Kp /
50+5*Kp` decay below it. -/
def specVisibilityProbability (userLat visibleLat kp : ℚ) : ℚ :=
  if visibleLat ≤ |userLat| then min 100 (80 + 2 * (|userLat| - visibleLat))
  else
    if 20 < visibleLat - |userLat| then 0
    else if 15 < visibleLat - |userLat| then 5
    else if 10 < visibleLat - |userLat| then 10 + 2 * kp
    else if 5 < visibleLat - |userLat| then 25 + 5 * kp
    else 50 + 5 * kp

/-! ### Astronomical events (`events.py`)

`get_upcoming_events` wraps its whole pipeline in `try/except` and
returns `[]` on any exception; the four sub-searches are modelled by
their outcomes, each either a raised exception or a found event list. -/

/-- The `AstroEvent` TypedDict; `date` is kept as an epoch-seconds
rational, which is all the sort key needs. -/
structure AstroEvent where
  type : String
  date : ℚ
  title : String
  description : String
  bodies : List String
deriving DecidableEq

/-- `skycli.sources.events.get_upcoming_events`: union the four
sub-search results in source order and sort ascending by date
(`sorted` is a stable ascending sort); any exception from the pipeline
is caught and yields `[]`. -/
def getUpcomingEvents
    (moonPhases conjunctions oppositions seasonal : Except PyErr (List AstroEvent)) :
    List AstroEvent :=
  match moonPhases, conjunctions, oppositions, seasonal with
  | .ok a, .ok b, .ok c, .ok d =>
    (a ++ b ++ c ++ d).insertionSort (fun x y => x.date ≤ y.date)
  | _, _, _, _ => []

/-! ### Meteor showers (`meteors.py`) -/

/-- One entry of the `showers.json` catalog, with its active range,
peak date and display fields. -/
structure ShowerEntry where
  name : String
  zhr : ℤ
  startMonth : ℕ
  startDay : ℕ
  endMonth : ℕ
  endDay : ℕ
  peakMonth : ℕ
  peakDay : ℕ
  radiant_constellation : String
deriving DecidableEq

/-- The `ShowerInfo` TypedDict. -/
structure ShowerInfo where
  name : String
  zhr : ℤ
  peak_date : String
  radiant_constellation : String
  is_peak : Bool
deriving DecidableEq

/-- `skycli.sources.meteors._is_date_in_range`, with the caller
`date.month`/`date.day` and the range endpoints as arguments. -/
def isDateInRange (month day sm sd em ed : ℕ) : Bool :=
  if em < sm then
    if sm < month ∨ (month = sm ∧ sd ≤ day) then true
    else if month < em ∨ (month = em ∧ day ≤ ed) then true
    else false
  else
    if month < sm ∨ em < month then false
    else if month = sm ∧ day < sd then false
    else if month = em ∧ ed < day then false
    else true

/-- The month/day order the specification describes: `(m1, d1)` at or
before `(m2, d2)` in the calendar. -/
def mdLe (m1 d1 m2 d2 : ℕ) : Prop :=
  m1 < m2 ∨ (m1 = m2 ∧ d1 ≤ d2)

/-- The activity rule exactly as the specification words it: the date
is inside the inclusive range, where a wrapped range (start month
after end month) accepts dates at or after the start or at or before
the end. -/
def specShowerActive (month day sm sd em ed : ℕ) : Prop :=
  if em < sm then mdLe sm sd month day ∨ mdLe month day em ed
  else mdLe sm sd month day ∧ mdLe month day em ed

/-- `skycli.sources.meteors._format_peak_date`. -/
def formatPeakDate (month day : ℕ) : String :=
  (["Jan", "Feb", "Mar", "Apr", "May", "Jun", "Jul", "Aug", "Sep", "Oct",
    "Nov", "Dec"].getD (month - 1) "")
    ++ " " ++ toString day

/-- The `ShowerInfo` built by `get_active_showers` for one catalog
entry: peak when the date is in the peak month within one day of the
peak day. -/
def mkShowerInfo (date : DateTime) (s : ShowerEntry) : ShowerInfo :=
  { name := s.name
    zhr := s.zhr
    peak_date := formatPeakDate s.peakMonth s.peakDay
    radiant_constellation := s.radiant_constellation
    is_peak := date.month = s.peakMonth ∧ ((date.day : ℤ) - s.peakDay).natAbs ≤ 1 }

/-- `skycli.sources.meteors.get_active_showers`: keep the in-range
catalog entries in order, then `active.sort(key=zhr, reverse=True)` —
a stable descending sort on ZHR. -/
def getActiveShowers (catalog : List ShowerEntry) (date : DateTime) : List ShowerInfo :=
  let active := (catalog.filter fun s =>
    isDateInRange date.month date.day s.startMonth s.startDay s.endMonth s.endDay).map
    (mkShowerInfo date)
  active.insertionSort (fun a b => b.zhr ≤ a.zhr)

/-! ### Report orchestrator (`report.py`)

The orchestrator makes one call per source; each call is abstracted by
the value it would return, collected in `SourceResults`.  A `DSOInfo`
record mirrors `deep_sky.py`. -/

/-- The `DSOInfo` TypedDict of `deep_sky.py`. -/
structure DSOInfo where
  id : String
  name : String
  constellation : String
  mag : ℚ
  size : ℚ
  type : String
  equipment : String
  tip : String
  altitude : ℚ
  azimuth : ℚ
deriving DecidableEq

/-- The values the six source calls of `build_report` would return for
the given location and instant. -/
structure SourceResults where
  sun : SunTimes
  moon : MoonInfo
  planets : List PlanetInfo
  iss : List ISSPass
  meteors : List ShowerInfo
  deepSky : List DSOInfo
  events : List AstroEvent
deriving DecidableEq

/-- The report dict assembled by `build_report`.  The moon field is
`Option`-valued so that "populated" (the computed `MoonInfo` was
stored) is distinguishable from an empty section; the list sections
default to `[]` exactly as in the source. -/
structure Report where
  date : DateTime
  lat : ℚ
  lon : ℚ
  sun : SunTimes
  moon : Option MoonInfo
  planets : List PlanetInfo
  iss_passes : List ISSPass
  meteors : List ShowerInfo
  deep_sky : List DSOInfo
  events : List AstroEvent
deriving DecidableEq

/-- `skycli.report._should_include`. -/
def shouldInclude (section_ : String) (only exclude : Option (List String)) : Bool :=
  match only with
  | some o => o.contains section_
  | Option.none =>
    match exclude with
    | some e => !(e.contains section_)
    | Option.none => true

/-- `skycli.report.build_report`: sun and moon are computed and stored
before any filter is consulted; the five list sections are overwritten
from their sources only when `_should_include` passes. -/
def buildReport (lat lon : ℚ) (date : DateTime) (src : SourceResults)
    (only exclude : Option (List String)) : Report :=
  { date := date
    lat := lat
    lon := lon
    sun := src.sun
    moon := some src.moon
    planets := if shouldInclude "planets" only exclude then src.planets else []
    iss_passes := if shouldInclude "iss" only exclude then src.iss else []
    meteors := if shouldInclude "meteors" only exclude then src.meteors else []
    deep_sky := if shouldInclude "deepsky" only exclude then src.deepSky else []
    events := if shouldInclude "events" only exclude then src.events else [] }

/-- The local-clock hour of a UTC datetime at longitude `lon`, under
the 15-degrees-per-hour convention, reduced to `[0, 24)`.  Used only
to state the selection rule worded in the specification, after local
noon at the observer location. -/
def localClockHour (lon : ℚ) (dt : DateTime) : ℚ :=
  let h := (dt.hour : ℚ) + (dt.minute : ℚ) / 60 + lon / 15
  h - 24 * ⌊h / 24⌋

/-- The twilight selection as the specification words it: the
transition instant falls after local noon at the observer
longitude. -/
def specAfterLocalNoon (lon : ℚ) (dt : DateTime) : Prop :=
  12 < localClockHour lon dt

/-! ### Concrete inputs used to exercise the embedded functions -/

/-- A sample query instant: 2025-01-15 22:00:00 UTC. -/
def dt2025 : DateTime := ⟨2025, 1, 15, 22, 0, 0, 0⟩

/-- The same wall-clock minute with nonzero seconds and microseconds. -/
def dt2025s : DateTime := ⟨2025, 1, 15, 22, 0, 30, 500⟩

/-- A twilight transition found at 14:xx UTC. -/
def dtHour14 : DateTime := ⟨2025, 1, 15, 14, 0, 0, 0⟩

/-- An ephemeris whose day window holds a single transition to night
level at 14:00 UTC, which is 09:04 local solar time at longitude
-74. -/
def ephTwilight14 : SunMoonEphemeris :=
  { sunEvents := fun _ _ _ => []
    twilightEvents := fun _ _ _ => [(dtHour14, 0)]
    moonPhaseAngle := fun _ => 0
    moonEvents := fun _ _ _ => [] }

/-- An ephemeris that reports a moon phase angle of 44.928 degrees, so
that the illumination is exactly 24.96. -/
def ephMoon2496 : SunMoonEphemeris :=
  { sunEvents := fun _ _ _ => []
    twilightEvents := fun _ _ _ => []
    moonPhaseAngle := fun _ => 5616/125
    moonEvents := fun _ _ _ => [] }

/-- An ephemeris that puts Mars barely above the horizon (altitude 0.3
degrees, azimuth 100 degrees) and every other planet below it. -/
def ephPlanetsLow : PlanetEphemeris :=
  { altaz := fun _ _ name _ => if name = "Mars" then (3/10, 100) else (-5, 0)
    riseSetEvents := fun _ _ _ _ => [] }

/-- The entry `get_visible_planets` yields for Mars under
`ephPlanetsLow`: the stored altitude has been rounded to 0. -/
def marsLowEntry : PlanetInfo :=
  { name := "Mars"
    direction := "E"
    azimuth := 100
    altitude := 0
    rise_time := Option.none
    set_time := Option.none
    description := "Reddish hue" }

/-- Sample sun times. -/
def sun0 : SunTimes := ⟨dt2025, dt2025, dt2025, dt2025⟩

/-- Sample moon info. -/
def moon0 : MoonInfo := ⟨"Full Moon", 99, "Poor", Option.none, Option.none⟩

/-- Sample source values for the orchestrator. -/
def src0 : SourceResults := ⟨sun0, moon0, [], [], [], [], []⟩

instance : IsTotal AstroEvent (fun x y => x.date ≤ y.date) :=
  ⟨fun a b => le_total a.date b.date⟩

instance : IsTrans AstroEvent (fun x y => x.date ≤ y.date) :=
  ⟨fun _ _ _ h1 h2 => le_trans h1 h2⟩

/-! ## Helper lemmas -/

theorem pyRound_nonneg {x : ℚ} (hx : 0 ≤ x) : 0 ≤ pyRound x := by
  have h0 : (0 : ℤ) ≤ ⌊x⌋ := Int.floor_nonneg.mpr hx
  unfold pyRound
  split_ifs <;> omega

theorem pyRound_le {x : ℚ} {n : ℤ} (hx : x ≤ n) : pyRound x ≤ n := by
  have hf : ⌊x⌋ ≤ n := by
    exact_mod_cast le_trans (Int.floor_le x) hx
  unfold pyRound
  split_ifs with h1 h2
  · exact hf
  · have hlt : (⌊x⌋ : ℚ) < n - 1/2 := by
      have := Int.fract_nonneg x
      have hr : (1:ℚ)/2 < x - ⌊x⌋ := h2
      linarith
    have : (⌊x⌋ : ℚ) < (n : ℚ) := by linarith
    have : ⌊x⌋ < n := by exact_mod_cast this
    omega
  · exact hf
  · have hr : ¬ (x - ⌊x⌋ < 1/2) := h1
    push_neg at hr
    have : (⌊x⌋ : ℚ) ≤ (n : ℚ) - 1/2 := by linarith
    have : (⌊x⌋ : ℚ) < (n : ℚ) := by linarith
    have : ⌊x⌋ < n := by exact_mod_cast this
    omega

theorem pyRoundTo_nonneg {x : ℚ} (d : ℕ) (hx : 0 ≤ x) : 0 ≤ pyRoundTo d x := by
  unfold pyRoundTo
  have h1 : 0 ≤ pyRound (x * 10 ^ d) := pyRound_nonneg (by positivity)
  have h2 : (0:ℚ) < 10 ^ d := by positivity
  have : (0:ℚ) ≤ (pyRound (x * 10 ^ d) : ℚ) := by exact_mod_cast h1
  positivity

theorem pyRoundTo_le {x : ℚ} {d : ℕ} {n : ℤ} (hx : x ≤ n) : pyRoundTo d x ≤ n := by
  unfold pyRoundTo
  have h1 : pyRound (x * 10 ^ d) ≤ n * 10 ^ d := by
    refine pyRound_le ?_
    have h2 : (0:ℚ) < 10 ^ d := by positivity
    calc x * 10 ^ d ≤ (n : ℚ) * 10 ^ d := by
          exact mul_le_mul_of_nonneg_right hx (le_of_lt h2)
      _ = ((n * 10 ^ d : ℤ) : ℚ) := by push_cast; ring
  have h2 : (0:ℚ) < 10 ^ d := by positivity
  rw [div_le_iff₀ h2]
  calc (pyRound (x * 10 ^ d) : ℚ) ≤ ((n * 10 ^ d : ℤ) : ℚ) := by exact_mod_cast h1
    _ = (n : ℚ) * 10 ^ d := by push_cast; ring

theorem pyInt_intCast (n : ℤ) : pyInt (n : ℚ) = n := by
  unfold pyInt
  split_ifs <;> simp

theorem pyInt_nonneg {x : ℚ} (hx : 0 ≤ x) : 0 ≤ pyInt x := by
  unfold pyInt
  rw [if_pos hx]
  exact Int.floor_nonneg.mpr hx

theorem pyInt_le {x : ℚ} {n : ℤ} (hx : 0 ≤ x) (hn : x ≤ n) : pyInt x ≤ n := by
  unfold pyInt
  rw [if_pos hx]
  exact_mod_cast le_trans (Int.floor_le x) hn

theorem twilightStep_fst_some (x : DateTime) (e : Option DateTime) (te : DateTime × ℕ) :
    (twilightStep (some x, e) te).1 = some x := by
  unfold twilightStep
  split_ifs with h1 h2 <;> simp_all

theorem twilightStep_snd_some (s : Option DateTime) (y : DateTime) (te : DateTime × ℕ) :
    (twilightStep (s, some y) te).2 = some y := by
  unfold twilightStep
  split_ifs with h1 h2 <;> simp_all

theorem foldl_twilightStep_fst_some (l : List (DateTime × ℕ)) :
    ∀ (x : DateTime) (e : Option DateTime),
      (l.foldl twilightStep (some x, e)).1 = some x := by
  induction l with
  | nil => intro x e; rfl
  | cons te l ih =>
    intro x e
    rw [List.foldl_cons]
    have hstep : twilightStep (some x, e) te
        = (some x, (twilightStep (some x, e) te).2) :=
      Prod.ext (twilightStep_fst_some x e te) rfl
    rw [hstep]
    exact ih x _

theorem foldl_twilightStep_snd_some (l : List (DateTime × ℕ)) :
    ∀ (s : Option DateTime) (y : DateTime),
      (l.foldl twilightStep (s, some y)).2 = some y := by
  induction l with
  | nil => intro s y; rfl
  | cons te l ih =>
    intro s y
    rw [List.foldl_cons]
    have hstep : twilightStep (s, some y) te
        = ((twilightStep (s, some y) te).1, some y) :=
      Prod.ext rfl (twilightStep_snd_some s y te)
    rw [hstep]
    exact ih _ y

theorem foldl_twilightStep_fst (l : List (DateTime × ℕ)) :
    ∀ e : Option DateTime,
      (l.foldl twilightStep (Option.none, e)).1
        = (l.find? fun te => decide (te.2 = 0 ∧ 12 < te.1.hour)).map Prod.fst := by
  induction l with
  | nil => intro e; rfl
  | cons te l ih =>
    intro e
    rw [List.foldl_cons]
    by_cases hp : te.2 = 0 ∧ 12 < te.1.hour
    · have hstep : twilightStep (Option.none, e) te = (some te.1, e) := by
        unfold twilightStep
        rw [if_pos ⟨hp.1, rfl, hp.2⟩]
      rw [hstep, foldl_twilightStep_fst_some]
      rw [List.find?_cons_of_pos _ (by simpa using hp)]
      rfl
    · have hfst : (twilightStep (Option.none, e) te).1 = Option.none := by
        unfold twilightStep
        split_ifs with h1 h2 <;> simp_all
      have hstep : twilightStep (Option.none, e) te
          = (Option.none, (twilightStep (Option.none, e) te).2) :=
        Prod.ext hfst rfl
      rw [hstep, ih]
      rw [List.find?_cons_of_neg _ (by simpa using hp)]

theorem foldl_twilightStep_snd (l : List (DateTime × ℕ)) :
    ∀ s : Option DateTime,
      (l.foldl twilightStep (s, Option.none)).2
        = (l.find? fun te => decide (te.2 = 1 ∧ te.1.hour < 12)).map Prod.fst := by
  induction l with
  | nil => intro s; rfl
  | cons te l ih =>
    intro s
    rw [List.foldl_cons]
    by_cases hp : te.2 = 1 ∧ te.1.hour < 12
    · have hstep : twilightStep (s, Option.none) te = (s, some te.1) := by
        unfold twilightStep
        rw [if_neg (by simp [hp.1]), if_pos ⟨hp.1, rfl, hp.2⟩]
      rw [hstep, foldl_twilightStep_snd_some]
      rw [List.find?_cons_of_pos _ (by simpa using hp)]
      rfl
    · have hsnd : (twilightStep (s, Option.none) te).2 = Option.none := by
        unfold twilightStep
        split_ifs with h1 h2 <;> simp_all
      have hstep : twilightStep (s, Option.none) te
          = ((twilightStep (s, Option.none) te).1, Option.none) :=
        Prod.ext rfl hsnd
      rw [hstep, ih]
      rw [List.find?_cons_of_neg _ (by simpa using hp)]

/-! ## Claim C1 -/

/-- C1, counterexample: with `only = ["planets"]`, the section filter
excludes `"moon"`, yet `build_report` stores the computed moon info in
the moon field of the report anyway — the moon field does not follow the
only/exclude inclusion rule the other named sections follow. -/
theorem buildReport_moon_ignores_filter :
    (buildReport 0 0 dt2025 src0 (some ["planets"]) Option.none).moon = some src0.moon
    ∧ shouldInclude "moon" (some ["planets"]) Option.none = false :=
  ⟨rfl, rfl⟩

/-- C1, amended: `build_report` populates both the sun and the moon
fields unconditionally, before and regardless of the only/exclude
filter; only the planets, iss, meteors, deepsky and events sections
follow the `_should_include` rule, falling back to `[]` when
excluded. -/
theorem buildReport_sections (lat lon : ℚ) (date : DateTime) (src : SourceResults)
    (only exclude : Option (List String)) :
    (buildReport lat lon date src only exclude).sun = src.sun
    ∧ (buildReport lat lon date src only exclude).moon = some src.moon
    ∧ (buildReport lat lon date src only exclude).planets
        = (if shouldInclude "planets" only exclude then src.planets else [])
    ∧ (buildReport lat lon date src only exclude).iss_passes
        = (if shouldInclude "iss" only exclude then src.iss else [])
    ∧ (buildReport lat lon date src only exclude).meteors
        = (if shouldInclude "meteors" only exclude then src.meteors else [])
    ∧ (buildReport lat lon date src only exclude).deep_sky
        = (if shouldInclude "deepsky" only exclude then src.deepSky else [])
    ∧ (buildReport lat lon date src only exclude).events
        = (if shouldInclude "events" only exclude then src.events else []) :=
  ⟨rfl, rfl, rfl, rfl, rfl, rfl, rfl⟩

/-! ## Claim C9 -/

/-- C9: both `_azimuth_to_direction` copies are the same function
`directions[round(azimuth / 45) % 8]` with Python half-to-even rounding,
so the half-way azimuths resolve to the even-indexed direction:
22.5 to N, 67.5 to E, 112.5 to E (not the clockwise SE), 157.5 to S
(not the clockwise neighbour uniformly). -/
theorem azimuthToDirection_bankers_rounding :
    (∀ az : ℚ,
      azimuthToDirectionPlanets az = azimuthToDirectionIss az
      ∧ azimuthToDirectionPlanets az
          = directions.getD (pyRound (az / 45) % 8).toNat "N")
    ∧ azimuthToDirectionPlanets (45/2) = "N"
    ∧ azimuthToDirectionPlanets (135/2) = "E"
    ∧ azimuthToDirectionPlanets (225/2) = "E"
    ∧ azimuthToDirectionPlanets (315/2) = "S" := by
  refine ⟨fun az => ⟨rfl, rfl⟩, ?_, ?_, ?_, ?_⟩ <;>
    norm_num [azimuthToDirectionPlanets, pyRound, directions] <;> rfl

/-! ## Claim C2 -/

/-- C2: the graceful-degradation contract of `get_iss_passes` holds for
the missing credential and for every caught fetch-level failure, and a
response without a `passes` key still yields `[]`; but the parsing
loop sits outside the `try` block, so a pass entry missing an expected
field (here `startUTC`) raises a `KeyError` that propagates to the
caller instead of producing `[]`. -/
theorem getIssPasses_error_contract :
    (∀ fetch, getIssPasses "" fetch = .ok [])
    ∧ (∀ k, getIssPasses k .timeout = .ok []
        ∧ getIssPasses k .httpStatusError = .ok []
        ∧ getIssPasses k .requestError = .ok []
        ∧ getIssPasses k .otherError = .ok [])
    ∧ getIssPasses "key" (.body (.dict [])) = .ok []
    ∧ getIssPasses "key" (.body (.dict [("passes", .list [.dict []])]))
        = .error (.keyError "startUTC") := by
  refine ⟨?_, ?_, rfl, rfl⟩
  · intro fetch
    rfl
  · intro k
    by_cases h : k = "" <;>
      refine ⟨?_, ?_, ?_, ?_⟩ <;> simp [getIssPasses, h]

/-! ## Claim C4 -/

/-- C4, counterexample: at longitude -74 the code selects the single
night-level transition at 14:00 UTC as the evening astronomical
twilight start (its UTC hour field exceeds 12), yet 14:00 UTC there is
about 09:04 local solar time — before local noon, so the claimed
"first night-level transition occurring after local noon at the
location of the observer" rule does not describe the code. -/
theorem getSunTimes_utc_not_local_noon :
    (getSunTimes ephTwilight14 (407/10) (-74) dt2025).astronomical_twilight_start
      = dtHour14
    ∧ ¬ specAfterLocalNoon (-74) dtHour14 := by
  constructor
  · rfl
  · unfold specAfterLocalNoon localClockHour dtHour14
    norm_num

/-- C4, amended: among the discrete twilight transitions found in the
day window, the evening astronomical-twilight start chosen is the
first transition to the night level whose UTC hour field is greater
than 12, and the morning astronomical-twilight end chosen is the first
transition to the astronomical level whose UTC hour field is less than
12 (falling back to the fixed 21:00 / 05:00 defaults when absent); the
comparison uses the UTC clock hour, not local noon at the location of the observer. -/
theorem getSunTimes_twilight_selection (eph : SunMoonEphemeris) (lat lon : ℚ)
    (date : DateTime) :
    (getSunTimes eph lat lon date).astronomical_twilight_start
      = (((eph.twilightEvents lat lon (tsKey3 date)).find?
          fun te => decide (te.2 = 0 ∧ 12 < te.1.hour)).map Prod.fst).getD
          (dtReplace date 21 0)
    ∧ (getSunTimes eph lat lon date).astronomical_twilight_end
      = (((eph.twilightEvents lat lon (tsKey3 date)).find?
          fun te => decide (te.2 = 1 ∧ te.1.hour < 12)).map Prod.fst).getD
          (dtReplace date 5 0) := by
  dsimp only [getSunTimes, twilightFold]
  exact ⟨by rw [foldl_twilightStep_fst], by rw [foldl_twilightStep_snd]⟩

/-! ## Claim C5 -/

/-- C5, counterexample: at phase angle 44.928 the raw illumination is
24.96, which the code classifies `Excellent` (24.96 < 25) and then
rounds to the returned value 25.0; the 4-tier step function of the
returned illumination 25.0 is `Good`, so `darkness_quality` is not the
step function of the returned illumination value. -/
theorem getMoonInfo_quality_rounding_mismatch :
    (getMoonInfo ephMoon2496 0 0 dt2025).illumination = 25
    ∧ (getMoonInfo ephMoon2496 0 0 dt2025).darkness_quality = "Excellent"
    ∧ darknessQualityOf (getMoonInfo ephMoon2496 0 0 dt2025).illumination = "Good" := by
  have hill : illuminationOf (5616/125 : ℚ) = 624/25 := by
    unfold illuminationOf
    rw [show (180:ℚ) - 5616/125 = 16884/125 by norm_num,
      abs_of_nonneg (by norm_num : (0:ℚ) ≤ 16884/125)]
    norm_num
  have h : (getMoonInfo ephMoon2496 0 0 dt2025).illumination = 25 := by
    dsimp only [getMoonInfo, ephMoon2496]
    rw [hill]
    norm_num [pyRoundTo, pyRound]
  refine ⟨h, ?_, ?_⟩
  · dsimp only [getMoonInfo, ephMoon2496]
    rw [hill]
    norm_num [darknessQualityOf]
  · rw [h]
    norm_num [darknessQualityOf]

/-- C5, amended: for a phase angle in [0, 360] the returned
illumination lies in [0, 100] and the darkness quality is one of the
four documented tiers; the quality equals the 4-tier step function
(below 25 Excellent, below 50 Good, below 75 Fair, else Poor) of the
exact pre-rounding illumination — the returned illumination is that
value rounded to one decimal, which can disagree with the
classification at a tier boundary. -/
theorem getMoonInfo_illumination_quality (eph : SunMoonEphemeris) (lat lon : ℚ)
    (date : DateTime) (h0 : 0 ≤ eph.moonPhaseAngle (tsKey5 date))
    (h360 : eph.moonPhaseAngle (tsKey5 date) ≤ 360) :
    0 ≤ (getMoonInfo eph lat lon date).illumination
    ∧ (getMoonInfo eph lat lon date).illumination ≤ 100
    ∧ (getMoonInfo eph lat lon date).darkness_quality ∈
        ["Excellent", "Good", "Fair", "Poor"]
    ∧ (getMoonInfo eph lat lon date).darkness_quality
        = darknessQualityOf (illuminationOf (eph.moonPhaseAngle (tsKey5 date))) := by
  set a := eph.moonPhaseAngle (tsKey5 date) with ha
  have hub : illuminationOf a ≤ 100 := by
    unfold illuminationOf
    have : 0 ≤ |180 - a| := abs_nonneg _
    nlinarith
  have hlb : 0 ≤ illuminationOf a := by
    unfold illuminationOf
    have habs : |180 - a| ≤ 180 := by
      rw [abs_le]
      constructor <;> linarith
    nlinarith
  refine ⟨?_, ?_, ?_, ?_⟩
  · exact pyRoundTo_nonneg 1 hlb
  · exact pyRoundTo_le (n := 100) (by exact_mod_cast hub)
  · dsimp only [getMoonInfo]
    unfold darknessQualityOf
    split_ifs <;> simp
  · rfl

/-! ## Claim C6 -/

/-- C6, counterexample: at latitude 66.25 with visible latitude 66 the
excess is 0.25 degrees, so the claimed formula gives
min(100, 80 + 2*0.25) = 80.5, but the code truncates with `int()` and
returns 80 — the probability does not equal the claimed formula. -/
theorem visibilityProbability_truncation_mismatch :
    calculateVisibilityProbability (265/4) 66 2 = 80
    ∧ specVisibilityProbability (265/4) 66 2 = 161/2
    ∧ ((calculateVisibilityProbability (265/4) 66 2 : ℚ)
        ≠ specVisibilityProbability (265/4) 66 2) := by
  have h1 : calculateVisibilityProbability (265/4) 66 2 = 80 := by
    unfold calculateVisibilityProbability
    rw [if_pos (by rw [abs_of_nonneg] <;> norm_num)]
    rw [abs_of_nonneg (by norm_num)]
    norm_num [pyInt]
  have h2 : specVisibilityProbability (265/4) 66 2 = 161/2 := by
    unfold specVisibilityProbability
    rw [if_pos (by rw [abs_of_nonneg] <;> norm_num)]
    rw [abs_of_nonneg (by norm_num)]
    norm_num
  refine ⟨h1, h2, ?_⟩
  rw [h1, h2]
  norm_num

/-- C6, amended: the code computes the specified piecewise model with
Python `int()` truncation applied to the capped base probability and
to the `2*Kp` / `5*Kp` terms; the claimed exact formulas hold whenever
those products are whole numbers (in particular for integer inputs),
and for any Kp in the index range [0, 9] the result lies in
[0, 100]. -/
theorem visibilityProbability_bounds_and_spec (lat vl kp : ℚ)
    (hk0 : 0 ≤ kp) (hk9 : kp ≤ 9) :
    0 ≤ calculateVisibilityProbability lat vl kp
    ∧ calculateVisibilityProbability lat vl kp ≤ 100
    ∧ ((∃ a : ℤ, (|lat| - vl) * 2 = (a : ℚ)) → (∃ b : ℤ, kp * 2 = (b : ℚ)) →
        (∃ c : ℤ, kp * 5 = (c : ℚ)) →
        (calculateVisibilityProbability lat vl kp : ℚ)
          = specVisibilityProbability lat vl kp) := by
  unfold calculateVisibilityProbability specVisibilityProbability
  by_cases hge : vl ≤ |lat|
  · rw [if_pos hge, if_pos hge]
    have he : 0 ≤ (|lat| - vl) * 2 := by
      have := sub_nonneg.mpr hge
      positivity
    have hbase0 : (0:ℚ) ≤ 80 + min 20 ((|lat| - vl) * 2) := by
      have : (0:ℚ) ≤ min 20 ((|lat| - vl) * 2) := le_min (by norm_num) he
      linarith
    refine ⟨?_, ?_, ?_⟩
    · exact le_min (by norm_num) (pyInt_nonneg hbase0)
    · exact min_le_left _ _
    · rintro ⟨a, haeq⟩ hb hc
      have ha0 : (0:ℚ) ≤ (a:ℚ) := haeq ▸ he
      have ha0i : (0:ℤ) ≤ a := by exact_mod_cast ha0
      rw [haeq]
      have hmin : min 20 ((a:ℚ)) = ((min 20 a : ℤ) : ℚ) := by
        push_cast
        rfl
      rw [hmin]
      have hsum : (80:ℚ) + ((min 20 a : ℤ) : ℚ) = ((80 + min 20 a : ℤ) : ℚ) := by
        push_cast
        ring
      rw [hsum, pyInt_intCast]
      rcases le_total a 20 with hle | hgt
      · rw [min_eq_right hle, mul_comm (2:ℚ) (|lat| - vl), haeq]
        push_cast
        ring
      · rw [min_eq_left hgt,
          show min (100:ℤ) (80 + 20) = 100 by norm_num]
        have h3 : (100:ℚ) ≤ 80 + 2 * (|lat| - vl) := by
          have h4 : (20:ℚ) ≤ (a:ℚ) := by exact_mod_cast hgt
          rw [← haeq] at h4
          linarith
        rw [min_eq_left h3]
        push_cast
        ring
  · rw [if_neg hge, if_neg hge]
    have hkp2 : kp * 2 ≤ ((18:ℤ) : ℚ) := by push_cast; linarith
    have hkp5 : kp * 5 ≤ ((45:ℤ) : ℚ) := by push_cast; linarith
    have h2n : 0 ≤ pyInt (kp * 2) := pyInt_nonneg (by positivity)
    have h5n : 0 ≤ pyInt (kp * 5) := pyInt_nonneg (by positivity)
    have h2u : pyInt (kp * 2) ≤ 18 := pyInt_le (by positivity) hkp2
    have h5u : pyInt (kp * 5) ≤ 45 := pyInt_le (by positivity) hkp5
    refine ⟨?_, ?_, ?_⟩
    · split_ifs <;> omega
    · split_ifs <;> omega
    · rintro ha ⟨b, hbeq⟩ ⟨c, hceq⟩
      have hbint : pyInt (kp * 2) = b := by rw [hbeq, pyInt_intCast]
      have hcint : pyInt (kp * 5) = c := by rw [hceq, pyInt_intCast]
      split_ifs <;> push_cast [hbint, hcint, ← hbeq, ← hceq] <;> ring

/-- C5, witness: the amended statement at the concrete phase angle
44.928, which lies in [0, 360]. -/
theorem getMoonInfo_illumination_quality_witness :
    0 ≤ (getMoonInfo ephMoon2496 0 0 dt2025).illumination
    ∧ (getMoonInfo ephMoon2496 0 0 dt2025).illumination ≤ 100
    ∧ (getMoonInfo ephMoon2496 0 0 dt2025).darkness_quality ∈
        ["Excellent", "Good", "Fair", "Poor"]
    ∧ (getMoonInfo ephMoon2496 0 0 dt2025).darkness_quality
        = darknessQualityOf (illuminationOf (ephMoon2496.moonPhaseAngle (tsKey5 dt2025))) :=
  getMoonInfo_illumination_quality ephMoon2496 0 0 dt2025
    (by norm_num [ephMoon2496]) (by norm_num [ephMoon2496])

/-- C6, witness: the amended statement at latitude 40, visible
latitude 62, Kp = 2 (so the Kp hypotheses hold). -/
theorem visibilityProbability_bounds_and_spec_witness :
    0 ≤ calculateVisibilityProbability 40 62 2
    ∧ calculateVisibilityProbability 40 62 2 ≤ 100
    ∧ ((∃ a : ℤ, (|(40:ℚ)| - 62) * 2 = (a : ℚ)) → (∃ b : ℤ, (2:ℚ) * 2 = (b : ℚ)) →
        (∃ c : ℤ, (2:ℚ) * 5 = (c : ℚ)) →
        (calculateVisibilityProbability 40 62 2 : ℚ)
          = specVisibilityProbability 40 62 2) :=
  visibilityProbability_bounds_and_spec 40 62 2 (by norm_num) (by norm_num)

/-! ## Claim C3 -/

/-- Under `ephPlanetsLow`, only Mars survives the horizon filter, and
its stored altitude rounds 0.3 down to 0. -/
theorem getVisiblePlanets_ephPlanetsLow :
    getVisiblePlanets ephPlanetsLow 0 0 dt2025 = [marsLowEntry] := by
  have hmars : planetEntry ephPlanetsLow 0 0 dt2025 "Mars" = some marsLowEntry := by
    unfold planetEntry
    rw [show ephPlanetsLow.altaz 0 0 (planetKey "Mars") (tsKey5 dt2025)
        = ((3/10 : ℚ), (100 : ℚ)) from rfl]
    rw [if_neg (by norm_num)]
    norm_num [marsLowEntry, azimuthToDirectionPlanets, pyRoundTo, pyRound,
      directions, planetDescription, riseSetFold]
    exact ⟨rfl, rfl, rfl, rfl⟩
  have haaOther : ∀ k, k ≠ "Mars" →
      ephPlanetsLow.altaz 0 0 k (tsKey5 dt2025) = ((-5 : ℚ), (0 : ℚ)) := by
    intro k hk
    show (if k = "Mars" then ((3 : ℚ)/10, (100 : ℚ)) else ((-5 : ℚ), (0 : ℚ)))
        = ((-5 : ℚ), (0 : ℚ))
    exact if_neg hk
  have hskip : ∀ name ∈ ["Mercury", "Venus", "Jupiter", "Saturn", "Uranus", "Neptune"],
      planetEntry ephPlanetsLow 0 0 dt2025 name = Option.none := by
    intro name hn
    fin_cases hn <;>
      · unfold planetEntry
        rw [haaOther _ (by decide)]
        rw [if_pos (by norm_num)]
  unfold getVisiblePlanets PLANETS
  rw [show ["Mercury", "Venus", "Mars", "Jupiter", "Saturn", "Uranus",
      "Neptune"].filterMap (planetEntry ephPlanetsLow 0 0 dt2025) = [marsLowEntry] by
    simp only [List.filterMap_cons, hmars,
      hskip "Mercury" (by simp), hskip "Venus" (by simp),
      hskip "Jupiter" (by simp), hskip "Saturn" (by simp),
      hskip "Uranus" (by simp), hskip "Neptune" (by simp)]
    rfl]
  simp

/-- C3, counterexample: `get_visible_planets` returns an entry whose
altitude field is 0 — Mars at a true altitude of 0.3 degrees passes
the `altitude <= 0` filter, but the stored `round(altitude, 0)` value
is 0, so the reported altitude is not strictly greater than 0. -/
theorem getVisiblePlanets_zero_altitude :
    getVisiblePlanets ephPlanetsLow 0 0 dt2025 = [marsLowEntry]
    ∧ marsLowEntry.altitude = 0 :=
  ⟨getVisiblePlanets_ephPlanetsLow, rfl⟩

/-- C3, amended: every returned entry comes from a planet whose
unrounded altitude at the query instant is strictly positive — a
planet at or below the horizon is never returned — but the stored
altitude field is that value rounded to the nearest integer, hence
only guaranteed nonnegative (it is 0 whenever the true altitude is
below half a degree). -/
theorem getVisiblePlanets_positive_before_rounding (eph : PlanetEphemeris)
    (lat lon : ℚ) (date : DateTime) :
    ∀ p ∈ getVisiblePlanets eph lat lon date,
      0 ≤ p.altitude
      ∧ ∃ name ∈ PLANETS, p.name = name
          ∧ 0 < (eph.altaz lat lon (planetKey name) (tsKey5 date)).1
          ∧ p.altitude = pyRoundTo 0 (eph.altaz lat lon (planetKey name) (tsKey5 date)).1 := by
  intro p hp
  unfold getVisiblePlanets at hp
  rw [(List.perm_insertionSort _ _).mem_iff, List.mem_filterMap] at hp
  obtain ⟨name, hname, hentry⟩ := hp
  unfold planetEntry at hentry
  by_cases halt : (eph.altaz lat lon (planetKey name) (tsKey5 date)).1 ≤ 0
  · rw [if_pos halt] at hentry
    exact absurd hentry (by simp)
  · rw [if_neg halt] at hentry
    push_neg at halt
    have hrec := Option.some.inj hentry
    refine ⟨?_, name, hname, ?_, halt, ?_⟩
    · rw [← hrec]
      exact pyRoundTo_nonneg 0 (le_of_lt halt)
    · rw [← hrec]
    · rw [← hrec]

/-- C3, witness: the amended statement applied to the Mars entry
produced under `ephPlanetsLow`, discharging the membership
hypothesis. -/
theorem getVisiblePlanets_positive_before_rounding_witness :
    0 ≤ marsLowEntry.altitude
    ∧ ∃ name ∈ PLANETS, marsLowEntry.name = name
        ∧ 0 < (ephPlanetsLow.altaz 0 0 (planetKey name) (tsKey5 dt2025)).1
        ∧ marsLowEntry.altitude
            = pyRoundTo 0 (ephPlanetsLow.altaz 0 0 (planetKey name) (tsKey5 dt2025)).1 :=
  getVisiblePlanets_positive_before_rounding ephPlanetsLow 0 0 dt2025 marsLowEntry
    (by rw [getVisiblePlanets_ephPlanetsLow]; exact List.mem_singleton_self _)

/-! ## Claim C7 -/

/-- C7: `get_upcoming_events` catches any exception from its pipeline
and returns `[]` — a failure in any of the four sub-searches yields
the empty list, never a propagated exception — and on success the
merged events are sorted ascending by date. -/
theorem getUpcomingEvents_graceful_and_sorted :
    (∀ e b c d, getUpcomingEvents (.error e) b c d = [])
    ∧ (∀ a e c d, getUpcomingEvents a (.error e) c d = [])
    ∧ (∀ a b e d, getUpcomingEvents a b (.error e) d = [])
    ∧ (∀ a b c e, getUpcomingEvents a b c (.error e) = [])
    ∧ ∀ a b c d, List.Sorted (fun x y => x.date ≤ y.date)
        (getUpcomingEvents a b c d) := by
  refine ⟨?_, ?_, ?_, ?_, ?_⟩
  · intro e b c d; cases b <;> cases c <;> cases d <;> rfl
  · intro a e c d; cases a <;> cases c <;> cases d <;> rfl
  · intro a b e d; cases a <;> cases b <;> cases d <;> rfl
  · intro a b c e; cases a <;> cases b <;> cases c <;> rfl
  · intro a b c d
    cases a <;> cases b <;> cases c <;> cases d <;>
      first
        | exact List.sorted_nil
        | exact List.sorted_insertionSort _ _

/-! ## Claim C8 -/

/-- C8: a catalog entry appears in `get_active_showers(date)` exactly
when the month/day of the date lies in the active range inclusive
of both endpoints, where a range wrapping the year boundary
(start month after end month) accepts dates at or after the start or
at or before the end; `_is_date_in_range` agrees with that rule on
every input. -/
theorem getActiveShowers_active_iff :
    (∀ m d sm sd em ed,
      isDateInRange m d sm sd em ed = true ↔ specShowerActive m d sm sd em ed)
    ∧ ∀ (catalog : List ShowerEntry) (date : DateTime) (info : ShowerInfo),
        info ∈ getActiveShowers catalog date
          ↔ ∃ s ∈ catalog,
              specShowerActive date.month date.day s.startMonth s.startDay
                s.endMonth s.endDay
              ∧ info = mkShowerInfo date s := by
  have h1 : ∀ m d sm sd em ed,
      isDateInRange m d sm sd em ed = true ↔ specShowerActive m d sm sd em ed := by
    intro m d sm sd em ed
    unfold isDateInRange specShowerActive mdLe
    split_ifs <;> simp_all <;> omega
  refine ⟨h1, ?_⟩
  intro catalog date info
  unfold getActiveShowers
  rw [(List.perm_insertionSort _ _).mem_iff, List.mem_map]
  constructor
  · rintro ⟨s, hs, rfl⟩
    rw [List.mem_filter] at hs
    exact ⟨s, hs.1, (h1 _ _ _ _ _ _).mp hs.2, rfl⟩
  · rintro ⟨s, hs, hact, rfl⟩
    exact ⟨s, List.mem_filter.mpr ⟨hs, (h1 _ _ _ _ _ _).mpr hact⟩, rfl⟩

/-! ## Claim C10 -/

/-- C10: `get_moon_info` and `get_visible_planets` pass only
`(year, month, day, hour, minute)` to the ephemeris (`ts.utc`
truncation to minute precision), so two instants agreeing on those
five fields — differing only in seconds or microseconds — produce
identical results under the same ephemeris. -/
theorem minute_truncation_invariance (ephM : SunMoonEphemeris)
    (ephP : PlanetEphemeris) (lat lon : ℚ) (d1 d2 : DateTime)
    (hy : d1.year = d2.year) (hmo : d1.month = d2.month) (hd : d1.day = d2.day)
    (hh : d1.hour = d2.hour) (hmi : d1.minute = d2.minute) :
    getMoonInfo ephM lat lon d1 = getMoonInfo ephM lat lon d2
    ∧ getVisiblePlanets ephP lat lon d1 = getVisiblePlanets ephP lat lon d2 := by
  have k5 : tsKey5 d1 = tsKey5 d2 := by
    unfold tsKey5
    rw [hy, hmo, hd, hh, hmi]
  have k3 : tsKey3 d1 = tsKey3 d2 := by
    unfold tsKey3
    rw [hy, hmo, hd]
  constructor
  · unfold getMoonInfo
    rw [k5, k3]
  · have hfun : planetEntry ephP lat lon d1 = planetEntry ephP lat lon d2 := by
      funext name
      unfold planetEntry
      rw [k5, k3]
    unfold getVisiblePlanets
    rw [hfun]

/-- C10, witness: the invariance at two instants in the same minute,
22:00:00.000000 and 22:00:30.000500 UTC on 2025-01-15, under the
sample ephemerides. -/
theorem minute_truncation_invariance_witness :
    getMoonInfo ephMoon2496 0 0 dt2025 = getMoonInfo ephMoon2496 0 0 dt2025s
    ∧ getVisiblePlanets ephPlanetsLow 0 0 dt2025
        = getVisiblePlanets ephPlanetsLow 0 0 dt2025s :=
  minute_truncation_invariance ephMoon2496 ephPlanetsLow 0 0 dt2025 dt2025s
    rfl rfl rfl rfl rfl

end AstroSky
